import Mathlib

/-!
# Verification of the earnout-deal backend service adapters

Shallow embedding of the backend service layer of the repository
(`SealService`, `WalrusService`, `SuiService`).  External collaborators
(the Sui RPC node, the Walrus storage relay, the Seal key servers and the
platform WebCrypto SHA-256) are modelled as explicit oracle parameters;
the adapter logic itself (guards, field normalisation, error wrapping,
commitment formatting) is translated directly from the TypeScript source.

Conventions used throughout:
* JavaScript byte arrays (`Buffer`/`Uint8Array`) are `List Nat` of byte values.
* JavaScript string-or-undefined values are `Option String`; JS truthiness
  for them (`undefined` and the empty string are falsy) is `jsOptStrTruthy`.
* `Date#toISOString` is injective in the epoch-millisecond value of the date,
  so ISO timestamp strings are modelled by their millisecond value (`Nat`).
* A TypeScript `throw` inside a service method is an `Except.error` carrying
  the message; the `catch` blocks that re-wrap errors are modelled by the
  corresponding message concatenation.
-/

/-! ## JavaScript primitives -/

/-- JS truthiness of a `string | undefined` value: `undefined` and `""` are falsy. -/
def jsOptStrTruthy : Option String → Bool
  | none => false
  | some s => !(s == "")

/-- JS `a || d` for a `string | undefined` value `a`: the value of `a` when truthy,
otherwise the fallback `d`. -/
def jsStrOrElse (a : Option String) (d : String) : String :=
  match a with
  | none => d
  | some s => if s == "" then d else s

/-- JS truthiness filter for a `number | undefined` value: `undefined` and `0`
are falsy; returns the value only when truthy. -/
def jsNumTruthy : Option Nat → Option Nat
  | none => none
  | some n => if n == 0 then none else some n

/-- JS `parseInt` on a decimal string: parses the longest leading run of digits;
`none` models the `NaN` result when the string does not start with a digit. -/
def jsParseInt (s : String) : Option Nat :=
  let digits := s.data.takeWhile Char.isDigit
  if digits.isEmpty then none
  else some ((String.mk digits).toNat!)

/-- Characters of a string before the first occurrence of the separator. -/
def splitHeadAux (sep : List Char) : List Char → List Char
  | [] => []
  | c :: rest => if sep.isPrefixOf (c :: rest) then [] else c :: splitHeadAux sep rest

/-- JS `s.split(sep)[0]` for a non-empty separator: the prefix of `s` before
the first occurrence of `sep` (the whole string when `sep` does not occur). -/
def jsSplitHead (s sep : String) : String := String.mk (splitHeadAux sep.data s.data)

/-! ## SHA-256 (the WebCrypto digest used by `generateCommitment`) -/

/-- The word modulus of SHA-256 arithmetic, 2^32. -/
def w32mod : Nat := 4294967296

/-- Addition modulo 2^32. -/
def add32 (a b : Nat) : Nat := (a + b) % w32mod

/-- Right rotation of a 32-bit word by `n` bits. -/
def rotr32 (x n : Nat) : Nat := ((x >>> n) ||| (x <<< (32 - n))) % w32mod

/-- Bitwise complement of a 32-bit word. -/
def not32 (x : Nat) : Nat := x ^^^ 4294967295

/-- The eight working variables of the SHA-256 compression function. -/
structure Hash8 where
  a : Nat
  b : Nat
  c : Nat
  d : Nat
  e : Nat
  f : Nat
  g : Nat
  h : Nat
  deriving DecidableEq

/-- SHA-256 initial hash value. -/
def initH : Hash8 :=
  ⟨1779033703, 3144134277, 1013904242, 2773480762,
   1359893119, 2600822924, 528734635, 1541459225⟩

/-- SHA-256 round constants. -/
def sha256K : List Nat :=
  [1116352408, 1899447441, 3049323471, 3921009573, 961987163,
   1508970993, 2453635748, 2870763221, 3624381080, 310598401,
   607225278, 1426881987, 1925078388, 2162078206, 2614888103,
   3248222580, 3835390401, 4022224774, 264347078, 604807628,
   770255983, 1249150122, 1555081692, 1996064986, 2554220882,
   2821834349, 2952996808, 3210313671, 3336571891, 3584528711,
   113926993, 338241895, 666307205, 773529912, 1294757372,
   1396182291, 1695183700, 1986661051, 2177026350, 2456956037,
   2730485921, 2820302411, 3259730800, 3345764771, 3516065817,
   3600352804, 4094571909, 275423344, 430227734, 506948616,
   659060556, 883997877, 958139571, 1322822218, 1537002063,
   1747873779, 1955562222, 2024104815, 2227730452, 2361852424,
   2428436474, 2756734187, 3204031479, 3329325298]

/-- Big-endian 8-byte encoding of the message bit length. -/
def bytes8BE (n : Nat) : List Nat :=
  [(n >>> 56) % 256, (n >>> 48) % 256, (n >>> 40) % 256, (n >>> 32) % 256,
   (n >>> 24) % 256, (n >>> 16) % 256, (n >>> 8) % 256, n % 256]

/-- SHA-256 padding: append `0x80`, zeros to 56 mod 64, then the 64-bit bit length. -/
def padMessage (msg : List Nat) : List Nat :=
  msg ++ [0x80] ++ List.replicate ((119 - msg.length % 64) % 64) 0 ++ bytes8BE (msg.length * 8)

/-- Split a byte list into 64-byte blocks (structural recursion on a fuel
bound that dominates the number of blocks). -/
def toBlocksAux : Nat → List Nat → List (List Nat)
  | 0, _ => []
  | _, [] => []
  | fuel + 1, x :: xs => ((x :: xs).take 64) :: toBlocksAux fuel ((x :: xs).drop 64)

/-- Split a byte list into 64-byte blocks. -/
def toBlocks (l : List Nat) : List (List Nat) := toBlocksAux l.length l

/-- Big-endian 32-bit words of a block. -/
def toWordsBE : List Nat → List Nat
  | b0 :: b1 :: b2 :: b3 :: rest =>
      (b0 * 16777216 + b1 * 65536 + b2 * 256 + b3) :: toWordsBE rest
  | _ => []

/-- SHA-256 small sigma 0. -/
def smallSigma0 (x : Nat) : Nat := (rotr32 x 7) ^^^ (rotr32 x 18) ^^^ (x >>> 3)

/-- SHA-256 small sigma 1. -/
def smallSigma1 (x : Nat) : Nat := (rotr32 x 17) ^^^ (rotr32 x 19) ^^^ (x >>> 10)

/-- SHA-256 big sigma 0. -/
def bigSigma0 (x : Nat) : Nat := (rotr32 x 2) ^^^ (rotr32 x 13) ^^^ (rotr32 x 22)

/-- SHA-256 big sigma 1. -/
def bigSigma1 (x : Nat) : Nat := (rotr32 x 6) ^^^ (rotr32 x 11) ^^^ (rotr32 x 25)

/-- SHA-256 choice function. -/
def chV (x y z : Nat) : Nat := (x &&& y) ^^^ ((not32 x) &&& z)

/-- SHA-256 majority function. -/
def majV (x y z : Nat) : Nat := (x &&& y) ^^^ (x &&& z) ^^^ (y &&& z)

/-- Extend the 16 block words with `n` further schedule words. -/
def extendWords (ws : List Nat) : Nat → List Nat
  | 0 => ws
  | n + 1 =>
      let prev := extendWords ws n
      let i := 16 + n
      prev ++ [(prev.getD (i - 16) 0 + smallSigma0 (prev.getD (i - 15) 0) +
                prev.getD (i - 7) 0 + smallSigma1 (prev.getD (i - 2) 0)) % w32mod]

/-- The 64-word message schedule of a block. -/
def schedule (block : List Nat) : List Nat := extendWords (toWordsBE block) 48

/-- One SHA-256 round, consuming a (round constant, schedule word) pair. -/
def roundStep (st : Hash8) (kw : Nat × Nat) : Hash8 :=
  let t1 := (st.h + bigSigma1 st.e + chV st.e st.f st.g + kw.1 + kw.2) % w32mod
  let t2 := (bigSigma0 st.a + majV st.a st.b st.c) % w32mod
  ⟨(t1 + t2) % w32mod, st.a, st.b, st.c, (st.d + t1) % w32mod, st.e, st.f, st.g⟩

/-- SHA-256 compression of one 64-byte block. -/
def compressBlock (st : Hash8) (block : List Nat) : Hash8 :=
  let fin := (sha256K.zip (schedule block)).foldl roundStep st
  ⟨add32 st.a fin.a, add32 st.b fin.b, add32 st.c fin.c, add32 st.d fin.d,
   add32 st.e fin.e, add32 st.f fin.f, add32 st.g fin.g, add32 st.h fin.h⟩

/-- Big-endian bytes of a 32-bit word. -/
def bytes4 (x : Nat) : List Nat :=
  [(x >>> 24) % 256, (x >>> 16) % 256, (x >>> 8) % 256, x % 256]

/-- Serialize the final hash state to 32 digest bytes. -/
def hashBytes (st : Hash8) : List Nat :=
  bytes4 st.a ++ bytes4 st.b ++ bytes4 st.c ++ bytes4 st.d ++
  bytes4 st.e ++ bytes4 st.f ++ bytes4 st.g ++ bytes4 st.h

/-- SHA-256 digest (32 bytes) of a byte message. -/
def sha256 (msg : List Nat) : List Nat :=
  hashBytes ((toBlocks (padMessage msg)).foldl compressBlock initH)

/-! ## Hex encoding (`b.toString(16).padStart(2, 0-char)` over digest bytes) -/

/-- Lowercase hex digit character for a nibble value. -/
def hexDigitChar (n : Nat) : Char :=
  if n = 1 then '1' else if n = 2 then '2' else if n = 3 then '3'
  else if n = 4 then '4' else if n = 5 then '5' else if n = 6 then '6'
  else if n = 7 then '7' else if n = 8 then '8' else if n = 9 then '9'
  else if n = 10 then 'a' else if n = 11 then 'b' else if n = 12 then 'c'
  else if n = 13 then 'd' else if n = 14 then 'e' else if n = 15 then 'f'
  else '0'

/-- The two lowercase hex characters of a byte, zero-padded to width 2
(as produced by `toString(16).padStart(2, ...)` for byte values). -/
def hexOfByte (b : Nat) : List Char := [hexDigitChar (b / 16), hexDigitChar (b % 16)]

/-- Hex encoding of a byte list, as produced by mapping each byte to its
zero-padded hex form and joining. -/
def bytesToHex (bs : List Nat) : String := String.mk (bs.flatMap hexOfByte)

-- Sanity checks of the SHA-256 embedding against the standard test vectors.
example : bytesToHex (sha256 []) =
    "e3b0c44298fc1c149afbf4c8996fb92427ae41e4649b934ca495991b7852b855" := by rfl

example : bytesToHex (sha256 [97, 98, 99]) =
    "ba7816bf8f01cfea414140de5dae2223b00361a396177a9cb410ff61f20015ad" := by rfl

/-- Char predicate: a lowercase hexadecimal digit (a decimal digit or one of
the character codes 97-102, that is `a`-`f`). -/
def isLowerHexDigit (c : Char) : Bool := c.isDigit || (97 ≤ c.toNat && c.toNat ≤ 102)

theorem hexDigitChar_isLowerHex (n : Nat) : isLowerHexDigit (hexDigitChar n) = true := by
  by_cases h1 : n = 1
  · subst h1; rfl
  by_cases h2 : n = 2
  · subst h2; rfl
  by_cases h3 : n = 3
  · subst h3; rfl
  by_cases h4 : n = 4
  · subst h4; rfl
  by_cases h5 : n = 5
  · subst h5; rfl
  by_cases h6 : n = 6
  · subst h6; rfl
  by_cases h7 : n = 7
  · subst h7; rfl
  by_cases h8 : n = 8
  · subst h8; rfl
  by_cases h9 : n = 9
  · subst h9; rfl
  by_cases h10 : n = 10
  · subst h10; rfl
  by_cases h11 : n = 11
  · subst h11; rfl
  by_cases h12 : n = 12
  · subst h12; rfl
  by_cases h13 : n = 13
  · subst h13; rfl
  by_cases h14 : n = 14
  · subst h14; rfl
  by_cases h15 : n = 15
  · subst h15; rfl
  unfold hexDigitChar
  rw [if_neg h1, if_neg h2, if_neg h3, if_neg h4, if_neg h5, if_neg h6, if_neg h7,
      if_neg h8, if_neg h9, if_neg h10, if_neg h11, if_neg h12, if_neg h13,
      if_neg h14, if_neg h15]
  rfl

theorem length_flatMap_hexOfByte (bs : List Nat) :
    (bs.flatMap hexOfByte).length = 2 * bs.length := by
  induction bs with
  | nil => rfl
  | cons b rest ih => simp [List.flatMap_cons, hexOfByte, ih]; omega

theorem bytesToHex_length (bs : List Nat) : (bytesToHex bs).length = 2 * bs.length := by
  simpa [bytesToHex, String.length] using length_flatMap_hexOfByte bs

theorem bytesToHex_all_hex (bs : List Nat) :
    (bytesToHex bs).data.all isLowerHexDigit = true := by
  simp only [bytesToHex, List.all_eq_true]
  intro c hc
  rcases List.mem_flatMap.mp hc with ⟨b, _, hb⟩
  simp only [hexOfByte, List.mem_cons, List.mem_singleton, List.not_mem_nil, or_false] at hb
  rcases hb with h | h
  · exact h ▸ hexDigitChar_isLowerHex _
  · exact h ▸ hexDigitChar_isLowerHex _

theorem sha256_length (msg : List Nat) : (sha256 msg).length = 32 := by
  simp [sha256, hashBytes, bytes4]

/-! ## Configuration and shared data model

Mirrors the fields of `config` (from `src/shared/config/env`) that the three
services read.  `Option String` fields model environment variables that may be
unset (`none`) or set to any string (including the falsy empty string). -/

/-- The backend signing credential, abstracted to the Sui address it controls
(`Ed25519Keypair#toSuiAddress`).  In the services it is `null` when
`config.sui.backendPrivateKey` is unset or fails to decode. -/
structure Keypair where
  suiAddress : String
  deriving DecidableEq

/-- The configuration surface read by the service methods under verification. -/
structure AppConfig where
  /-- Field `config.app.enableServerEncryption`. -/
  enableServerEncryption : Bool
  /-- Field `config.seal.policyObjectId`. -/
  sealPolicyObjectId : Option String
  /-- Field `config.earnout.packageId`. -/
  earnoutPackageId : Option String
  /-- Field `config.walrus.maxFileSize`. -/
  walrusMaxFileSize : Nat
  /-- Field `config.walrus.storageEpochs`. -/
  walrusStorageEpochs : Nat
  /-- the `backendKeypair` field initialised in the service constructors -/
  backendKeypair : Option Keypair
  deriving DecidableEq

/-! ## SealService (`src/src/backend/services/seal-service.ts`) -/

/-- Argument object of `SealService.encrypt` (`SealEncryptionConfig`). -/
structure SealEncryptionConfig where
  policyObjectId : String
  dealId : String
  deriving DecidableEq

/-- The request `SealService.encrypt` passes to `sealClient.encrypt`. -/
structure SealEncryptReq where
  threshold : Nat
  packageId : String
  idArg : String
  data : List Nat
  deriving DecidableEq

/-- The `SealEncryptionResult` DTO (ciphertext, commitment, policy id, ISO timestamp
modelled by its millisecond value). -/
structure SealEncryptionResult where
  ciphertext : List Nat
  commitment : String
  policyObjectId : String
  encryptedAt : Nat
  deriving DecidableEq

/-- Method `SealService.generateCommitment`: SHA-256 over the data, hex-encoded with
the `sha256:` prefix. -/
def generateCommitment (data : List Nat) : String :=
  "sha256:" ++ bytesToHex (sha256 data)

/-- Method `SealService.encrypt`.  Here `encO` is the `sealClient.encrypt` SDK/network
oracle (returning the `encryptedObject` bytes or throwing); `now` is the
current time in ms.  Returns the result (or thrown error) together with the
list of encryption-SDK requests issued. -/
def SealService.encrypt (cfg : AppConfig)
    (encO : SealEncryptReq → Except String (List Nat)) (now : Nat)
    (plaintext : List Nat) (encryptionConfig : SealEncryptionConfig) :
    Except String SealEncryptionResult × List SealEncryptReq :=
  if !cfg.enableServerEncryption then
    (Except.error "Server-side encryption is disabled", [])
  else if !(jsOptStrTruthy cfg.sealPolicyObjectId) then
    (Except.error "Seal policy object ID is not configured", [])
  else
    let req : SealEncryptReq :=
      ⟨2, jsSplitHead encryptionConfig.policyObjectId "::",
       encryptionConfig.dealId, plaintext⟩
    match encO req with
    | Except.error e =>
        (Except.error ("Failed to encrypt data: " ++ e), [req])
    | Except.ok encryptedObject =>
        (Except.ok
          ⟨encryptedObject, generateCommitment encryptedObject,
           encryptionConfig.policyObjectId, now⟩, [req])

/-- The parsed form of a Seal encrypted object (`EncryptedObject.parse`),
abstracted to the identity field `decrypt` reads from it. -/
structure ParsedEncryptedObject where
  idField : String
  deriving DecidableEq

/-- The request `decrypt` passes to `SessionKey.create`. -/
structure SessionKeyReq where
  address : String
  packageId : String
  ttlMin : Nat
  deriving DecidableEq

/-- The request `decrypt` passes to `sealClient.fetchKeys`; `σ` is the opaque
session-key object produced by `SessionKey.create`. -/
structure FetchKeysReq (σ : Type) where
  ids : List String
  txBytes : List Nat
  sessionKey : σ
  threshold : Nat
  deriving DecidableEq

/-- The request `decrypt` passes to `sealClient.decrypt`. -/
structure SealDecryptReq (σ : Type) where
  data : List Nat
  sessionKey : σ
  txBytes : List Nat
  checkShareConsistency : Bool
  deriving DecidableEq

/-- A network/SDK call issued by `SealService.decrypt`, in issue order. -/
inductive SealNetCall (σ : Type) where
  | createSession (req : SessionKeyReq)
  | fetchKeys (req : FetchKeysReq σ)
  | decryptCall (req : SealDecryptReq σ)
  deriving DecidableEq

/-- The `SealDecryptionResult` DTO (plaintext plus metadata: policy id and an ISO
timestamp modelled by its millisecond value). -/
structure SealDecryptionResult where
  plaintext : List Nat
  policyObjectId : String
  encryptedAt : Nat
  deriving DecidableEq

/-- Method `SealService.decrypt`.  Oracles: `parse` is `EncryptedObject.parse`
(throwing on malformed ciphertext), `sessionO` is `SessionKey.create`
(producing an opaque session key `σ`), `fetchO` is `sealClient.fetchKeys`,
`decO` is `sealClient.decrypt`.  The `userAddress` argument is the third
parameter of the TypeScript method.  Returns the result together with the
trace of network/SDK calls issued.  The inner duplicate `backendKeypair`
re-check of the source is unreachable after the first guard and is subsumed
by it here; the non-null assertion `config.seal.policyObjectId!` is modelled
by the `none` branch throwing the runtime TypeError, which the catch block
wraps like any other error. -/
def SealService.decrypt {σ : Type} (cfg : AppConfig)
    (parse : List Nat → Except String ParsedEncryptedObject)
    (sessionO : SessionKeyReq → Except String σ)
    (fetchO : FetchKeysReq σ → Except String Unit)
    (decO : SealDecryptReq σ → Except String (List Nat)) (now : Nat)
    (ciphertext : List Nat) (dealId userAddress : String) :
    Except String SealDecryptionResult × List (SealNetCall σ) :=
  if !cfg.enableServerEncryption then
    (Except.error "Server-side decryption is disabled", [])
  else
    match cfg.backendKeypair with
    | none => (Except.error "Backend keypair is not configured for decryption", [])
    | some kp =>
      match parse ciphertext with
      | Except.error e => (Except.error ("Failed to decrypt data: " ++ e), [])
      | Except.ok parsed =>
        match cfg.sealPolicyObjectId with
        | none =>
            (Except.error
              ("Failed to decrypt data: " ++ "Cannot read properties of undefined"), [])
        | some pid =>
          let skReq : SessionKeyReq := ⟨kp.suiAddress, jsSplitHead pid "::", 10⟩
          match sessionO skReq with
          | Except.error e =>
              (Except.error ("Failed to decrypt data: " ++ e),
               [SealNetCall.createSession skReq])
          | Except.ok sessionKey =>
            let fkReq : FetchKeysReq σ := ⟨[parsed.idField], [], sessionKey, 2⟩
            match fetchO fkReq with
            | Except.error e =>
                (Except.error ("Failed to decrypt data: " ++ e),
                 [SealNetCall.createSession skReq, SealNetCall.fetchKeys fkReq])
            | Except.ok _ =>
              let dcReq : SealDecryptReq σ := ⟨ciphertext, sessionKey, [], true⟩
              match decO dcReq with
              | Except.error e =>
                  (Except.error ("Failed to decrypt data: " ++ e),
                   [SealNetCall.createSession skReq, SealNetCall.fetchKeys fkReq,
                    SealNetCall.decryptCall dcReq])
              | Except.ok plaintext =>
                  (Except.ok ⟨plaintext, pid, now⟩,
                   [SealNetCall.createSession skReq, SealNetCall.fetchKeys fkReq,
                    SealNetCall.decryptCall dcReq])

/-- The `UserRole` union from the shared types. -/
inductive UserRole where
  | buyer
  | seller
  | auditor
  deriving DecidableEq

/-- The `AccessVerificationResult` DTO. -/
structure AccessVerificationResult where
  hasAccess : Bool
  role : Option UserRole
  reason : Option String
  deriving DecidableEq

/-- Method `SealService.verifyAccess`.  Here `nodeEnv` is `process.env.NODE_ENV`.  The
body performs no ledger query: in the development branch it returns the
placeholder grant, otherwise the fixed denial; the surrounding try/catch has
no throwing operation to catch. -/
def SealService.verifyAccess (nodeEnv : String)
    (dealId userAddress : String) (requiredRole : Option UserRole) :
    AccessVerificationResult :=
  if nodeEnv == "development" then
    { hasAccess := true, role := some UserRole.buyer, reason := none }
  else
    { hasAccess := false, role := none,
      reason := some "Access verification not yet implemented" }

/-! ## WalrusService (`WalrusService` in the backend services) -/

/-- Blob metadata supplied by the upload caller; its fields are not read by
`upload` (the TypeScript body never uses the `metadata` parameter). -/
structure BlobMetadata where
  fileName : String
  deriving DecidableEq

/-- The result of `walrusClient.writeBlobToUploadRelay`: the blob id and the
storage certificate (modelled by its JSON serialisation). -/
structure WalrusWriteResult where
  blobId : String
  certificate : String
  deriving DecidableEq

/-- Response of `walrusClient.systemState()`, abstracted to the committee epoch read by
`upload` and `getBlobInfo`. -/
structure SystemState where
  epoch : Nat
  deriving DecidableEq

/-- A network call issued by `WalrusService.upload`, in issue order. -/
inductive WalrusNetCall where
  | writeBlob (blob : List Nat) (deletable : Bool) (epochs : Nat) (signer : String)
  | systemStateCall
  deriving DecidableEq

/-- The `WalrusUploadResult` DTO (ISO timestamp modelled by its millisecond value). -/
structure WalrusUploadResult where
  blobId : String
  commitment : String
  size : Nat
  uploadedAt : Nat
  storageEpochs : Nat
  endEpoch : Nat
  deriving DecidableEq

/-- Method `WalrusService.formatCertificate`: `JSON.stringify(certificate)` truncated
to 64 characters behind the `walrus:` prefix (the certificate is modelled by
its JSON serialisation). -/
def formatCertificate (certificate : String) : String :=
  "walrus:" ++ String.mk (certificate.data.take 64)

/-- Method `WalrusService.upload`.  Here `writeO` is the `writeBlobToUploadRelay` relay
oracle, `stateO` the `systemState()` oracle, `now` the current time in ms.
Returns the result (or wrapped thrown error) together with the trace of
network calls issued. -/
def WalrusService.upload (cfg : AppConfig)
    (writeO : List Nat → Except String WalrusWriteResult)
    (stateO : Except String SystemState) (now : Nat)
    (data : List Nat) (metadata : BlobMetadata) :
    Except String WalrusUploadResult × List WalrusNetCall :=
  if data.length > cfg.walrusMaxFileSize then
    (Except.error
      ("Failed to upload to Walrus: " ++ "File size " ++ toString data.length ++
       " exceeds maximum allowed " ++ toString cfg.walrusMaxFileSize ++ " bytes"), [])
  else
    match cfg.backendKeypair with
    | none =>
        (Except.error
          ("Failed to upload to Walrus: " ++ "Backend keypair not configured for Walrus uploads"),
         [])
    | some kp =>
      let call := WalrusNetCall.writeBlob data true cfg.walrusStorageEpochs kp.suiAddress
      match writeO data with
      | Except.error e =>
          (Except.error ("Failed to upload to Walrus: " ++ e), [call])
      | Except.ok result =>
        match stateO with
        | Except.error e =>
            (Except.error ("Failed to upload to Walrus: " ++ e),
             [call, WalrusNetCall.systemStateCall])
        | Except.ok systemState =>
            (Except.ok
              ⟨result.blobId, formatCertificate result.certificate, data.length, now,
               cfg.walrusStorageEpochs, systemState.epoch + cfg.walrusStorageEpochs⟩,
             [call, WalrusNetCall.systemStateCall])

/-- The `primary_hash` of the first hash entry of Walrus blob metadata: the
`$kind` discriminant is either the raw digest (`Digest`, carrying the digest
bytes) or some other tag. -/
inductive PrimaryHash where
  | digest (bytes : List Nat)
  | otherKind (kind : String)
  deriving DecidableEq

/-- One entry of `metadata.metadata.V1.hashes`; `primary_hash` may be absent. -/
structure HashPair where
  primary_hash : Option PrimaryHash
  deriving DecidableEq

/-- Layer `metadata.metadata.V1` of the blob metadata. -/
structure MetadataV1 where
  unencoded_length : Nat
  hashes : List HashPair
  deriving DecidableEq

/-- Layer `metadata.metadata` (the `V1` variant wrapper). -/
structure MetadataInner where
  V1 : MetadataV1
  deriving DecidableEq

/-- The blob metadata response of `walrusClient.getBlobMetadata`. -/
structure WalrusBlobMetadata where
  metadata : MetadataInner
  deriving DecidableEq

/-- Method `WalrusService.formatMetadata`: extracts the primary digest of the first
hash entry when its discriminant is `Digest` and hex-encodes it behind the
`walrus:` prefix; any other shape (missing entry, missing `primary_hash`, or a
different discriminant) yields the `walrus:unknown` sentinel.  The try/catch
of the source only guards field access, which the typed model makes total. -/
def formatMetadata (metadata : WalrusBlobMetadata) : String :=
  match metadata.metadata.V1.hashes.head? with
  | some hashPair =>
    match hashPair.primary_hash with
    | some (PrimaryHash.digest bytes) => "walrus:" ++ bytesToHex bytes
    | _ => "walrus:unknown"
  | none => "walrus:unknown"

/-- The `BlobInfo` DTO (ISO timestamp modelled by its millisecond value). -/
structure BlobInfo where
  blobId : String
  size : Nat
  commitment : String
  uploadedAt : Nat
  storageEpochs : Nat
  endEpoch : Nat
  deriving DecidableEq

/-- Method `WalrusService.getBlobInfo`.  Here `statusO` is the `getVerifiedBlobStatus`
oracle (its value is only logged), `metaO` the `getBlobMetadata` oracle,
`stateO` the `systemState()` oracle. -/
def WalrusService.getBlobInfo (statusO : Except String Unit)
    (metaO : Except String WalrusBlobMetadata)
    (stateO : Except String SystemState) (now : Nat) (blobId : String) :
    Except String BlobInfo :=
  match statusO with
  | Except.error e => Except.error ("Failed to get blob info: " ++ e)
  | Except.ok _ =>
    match metaO with
    | Except.error e => Except.error ("Failed to get blob info: " ++ e)
    | Except.ok metadata =>
      match stateO with
      | Except.error e => Except.error ("Failed to get blob info: " ++ e)
      | Except.ok systemState =>
          Except.ok
            ⟨blobId, metadata.metadata.V1.unencoded_length, formatMetadata metadata,
             now, 0, systemState.epoch⟩

/-! ## SuiService (`SuiService` in the backend services) -/

/-- One raw entry of the Deal object's `walrus_blobs` field, as cast in
`getDealBlobReferences`: every field may be absent, and the same datum may
appear under a snake_case or a camelCase key. -/
structure RawBlob where
  blob_id : Option String
  blobId : Option String
  period_id : Option String
  periodId : Option String
  data_type : Option String
  dataType : Option String
  size : Option Nat
  uploaded_at : Option Nat
  uploadedAt : Option Nat
  uploader : Option String
  uploaderAddress : Option String
  deriving DecidableEq

/-- The `OnChainBlobReference` DTO (the `uploadedAt` ISO string is modelled by its
millisecond value; `new Date(s * 1000)` for the snake_case seconds field and
`new Date(ms)` for the camelCase field are injective in that value). -/
structure OnChainBlobReference where
  blobId : String
  periodId : String
  dataType : String
  size : Nat
  uploadedAt : Nat
  uploaderAddress : String
  deriving DecidableEq

/-- The element-wise normalisation performed by `getDealBlobReferences`
(`walrusBlobs.map(blob => ...)`); `now` is the current time in ms used by the
`new Date()` fallback. -/
def mapRawBlob (now : Nat) (blob : RawBlob) : OnChainBlobReference :=
  { blobId := jsStrOrElse blob.blob_id (jsStrOrElse blob.blobId "")
    periodId := jsStrOrElse blob.period_id (jsStrOrElse blob.periodId "")
    dataType := jsStrOrElse blob.data_type (jsStrOrElse blob.dataType "")
    size := (jsNumTruthy blob.size).getD 0
    uploadedAt :=
      match jsNumTruthy blob.uploaded_at with
      | some seconds => seconds * 1000
      | none =>
        match jsNumTruthy blob.uploadedAt with
        | some ms => ms
        | none => now
    uploaderAddress := jsStrOrElse blob.uploader (jsStrOrElse blob.uploaderAddress "") }

/-- The `fields` map of the Deal Move object, restricted to the fields the
service reads. -/
structure DealFields where
  walrus_blobs : Option (List RawBlob)
  buyer : Option String
  seller : Option String
  auditor : Option String
  deriving DecidableEq

/-- The `content` of a fetched object: a Move object with fields, or content
with a different `dataType` discriminant. -/
inductive DealContent where
  | moveObject (fields : DealFields)
  | nonMove
  deriving DecidableEq

/-- Layer `dealObject.data` (present iff the object was found). -/
structure DealObjData where
  content : Option DealContent
  deriving DecidableEq

/-- A `suiClient.getObject` response for a Deal object. -/
structure DealObjResponse where
  data : Option DealObjData
  deriving DecidableEq

/-- Method `SuiService.getDealBlobReferences`.  Here `fetch` is the `suiClient.getObject`
oracle.  Returns the empty list when the earnout package is unconfigured or
the Deal object has no `walrus_blobs` array; errors thrown inside the try
block are wrapped by the catch. -/
def SuiService.getDealBlobReferences (cfg : AppConfig)
    (fetch : String → Except String DealObjResponse) (dealId : String) (now : Nat) :
    Except String (List OnChainBlobReference) :=
  if !(jsOptStrTruthy cfg.earnoutPackageId) then
    Except.ok []
  else
    match fetch dealId with
    | Except.error e => Except.error ("Failed to query on-chain blob data: " ++ e)
    | Except.ok response =>
      match response.data with
      | none =>
          Except.error ("Failed to query on-chain blob data: " ++ "Deal not found: " ++ dealId)
      | some objData =>
        match objData.content with
        | some (DealContent.moveObject fields) =>
          match fields.walrus_blobs with
          | none => Except.ok []
          | some walrusBlobs => Except.ok (walrusBlobs.map (mapRawBlob now))
        | _ =>
            Except.error ("Failed to query on-chain blob data: " ++ "Invalid Deal object structure")

/-- Method `SuiService.verifyDealParticipant`: permissive `true` when the earnout
package is unconfigured; otherwise checks the buyer/seller/auditor fields of
the Deal object; any thrown error is caught and mapped to `false`. -/
def SuiService.verifyDealParticipant (cfg : AppConfig)
    (fetch : String → Except String DealObjResponse)
    (dealId userAddress : String) : Bool :=
  if !(jsOptStrTruthy cfg.earnoutPackageId) then
    true
  else
    match fetch dealId with
    | Except.error _ => false
    | Except.ok response =>
      match response.data with
      | none => false
      | some objData =>
        match objData.content with
        | some (DealContent.moveObject fields) =>
            fields.buyer == some userAddress ||
            fields.seller == some userAddress ||
            fields.auditor == some userAddress
        | _ => false

/-- The `parsedJson` of a `DataAuditRecordCreated` event. -/
structure AuditEventJson where
  audit_record_id : Option String
  deal_id : Option String
  deriving DecidableEq

/-- The Move `Option` encoding `{ vec: [] | [x] }` used by audit record
fields, with the `vec` key itself possibly absent. -/
structure MoveOptVec where
  vec : Option (List String)
  deriving DecidableEq

/-- The `fields` map of a `DataAuditRecord` Move object. -/
structure AuditFields where
  data_id : Option String
  deal_id : Option String
  period_id : Option String
  uploader : Option String
  upload_timestamp : Option String
  audited : Option Bool
  auditor : Option MoveOptVec
  audit_timestamp : Option MoveOptVec
  deriving DecidableEq

/-- The `content` of a fetched audit record object. -/
inductive AuditContent where
  | moveObject (fields : AuditFields)
  | nonMove
  deriving DecidableEq

/-- Layer `obj.data` of a fetched audit record object. -/
structure AuditObjData where
  content : Option AuditContent
  deriving DecidableEq

/-- A `suiClient.getObject` response for an audit record object. -/
structure AuditObjResponse where
  data : Option AuditObjData
  deriving DecidableEq

/-- The `DataAuditRecord` DTO.  Its `uploadTimestamp` is `parseInt` of the on-chain
string (with `none` modelling `NaN`, and `some 0` the falsy-field default);
`auditTimestamp` is `none` when the field is absent, empty or unparsable. -/
structure DataAuditRecord where
  recId : String
  dataId : String
  dealId : String
  periodId : String
  uploader : String
  uploadTimestamp : Option Nat
  audited : Bool
  auditor : Option String
  auditTimestamp : Option Nat
  deriving DecidableEq

/-- The record `getDealAuditRecords` builds from a fetched audit object. -/
def mkAuditRecord (recordId : String) (fields : AuditFields) : DataAuditRecord :=
  { recId := recordId
    dataId := jsStrOrElse fields.data_id ""
    dealId := jsStrOrElse fields.deal_id ""
    periodId := jsStrOrElse fields.period_id ""
    uploader := jsStrOrElse fields.uploader ""
    uploadTimestamp :=
      match fields.upload_timestamp with
      | some s => if s == "" then some 0 else jsParseInt s
      | none => some 0
    audited := fields.audited == some true
    auditor :=
      match fields.auditor with
      | some optVec =>
        match optVec.vec with
        | some l => l.head?
        | none => none
      | none => none
    auditTimestamp :=
      match fields.audit_timestamp with
      | some optVec =>
        match optVec.vec with
        | some l =>
          match l.head? with
          | some s => if s == "" then none else jsParseInt s
          | none => none
        | none => none
      | none => none }

/-- The event-filtering phase of `getDealAuditRecords`: keep the
`audit_record_id` of every event whose `deal_id` strictly equals the queried
deal and whose `audit_record_id` is truthy, in event order. -/
def auditCandidateIds (dealId : String) (events : List AuditEventJson) : List String :=
  events.filterMap (fun event =>
    if event.deal_id == some dealId then
      match event.audit_record_id with
      | some s => if s == "" then none else some s
      | none => none
    else none)

/-- One iteration of the fetch loop of `getDealAuditRecords`: fetch the
candidate object and build its record, or skip it (via the per-iteration
catch / `continue`) when the fetch throws or yields a missing or non-Move
object. -/
def auditRecordOfFetch (fetchObj : String → Except String AuditObjResponse)
    (recordId : String) : Option DataAuditRecord :=
  match fetchObj recordId with
  | Except.error _ => none
  | Except.ok response =>
    match response.data with
    | none => none
    | some objData =>
      match objData.content with
      | some (AuditContent.moveObject fields) => some (mkAuditRecord recordId fields)
      | _ => none

/-- The fetch loop of `getDealAuditRecords`: each iteration appends the
record of its candidate id, or skips it. -/
def fetchAuditRecords (fetchObj : String → Except String AuditObjResponse)
    (auditRecordIds : List String) : List DataAuditRecord :=
  auditRecordIds.filterMap (auditRecordOfFetch fetchObj)

/-- Method `SuiService.getDealAuditRecords`.  Here `queryO` is the `queryEvents` oracle
(the node applies the `limit: 1000` cap; the model takes the returned page as
given), `fetchObj` the per-record `getObject` oracle. -/
def SuiService.getDealAuditRecords (cfg : AppConfig)
    (queryO : Except String (List AuditEventJson))
    (fetchObj : String → Except String AuditObjResponse) (dealId : String) :
    Except String (List DataAuditRecord) :=
  if !(jsOptStrTruthy cfg.earnoutPackageId) then
    Except.ok []
  else
    match queryO with
    | Except.error e => Except.error ("Failed to query audit records: " ++ e)
    | Except.ok events =>
      let auditRecordIds := auditCandidateIds dealId events
      if auditRecordIds.isEmpty then Except.ok []
      else Except.ok (fetchAuditRecords fetchObj auditRecordIds)

/-! ## Claim theorems -/


/-- C1: for every ciphertext and dealId, `SealService.decrypt` attaches a
zero-length (empty) approval transaction (`txBytes`) to every key-share fetch
request it sends to the key servers, and two decrypt runs that differ only in
the `userAddress` argument issue identical network/SDK call traces (hence
identical key-fetch requests): the on-chain authorization proof is never
built from the user. -/
theorem C1_decrypt_empty_txBytes_user_independent (σ : Type) (cfg : AppConfig)
    (parse : List Nat → Except String ParsedEncryptedObject)
    (sessionO : SessionKeyReq → Except String σ)
    (fetchO : FetchKeysReq σ → Except String Unit)
    (decO : SealDecryptReq σ → Except String (List Nat)) (now : Nat)
    (ciphertext : List Nat) (dealId u1 u2 : String) :
    (SealService.decrypt cfg parse sessionO fetchO decO now ciphertext dealId u1).2 =
      (SealService.decrypt cfg parse sessionO fetchO decO now ciphertext dealId u2).2 ∧
    ∀ req : FetchKeysReq σ,
      SealNetCall.fetchKeys req ∈
        (SealService.decrypt cfg parse sessionO fetchO decO now ciphertext dealId u1).2 →
      req.txBytes = [] := by
  have hall :
      ((SealService.decrypt cfg parse sessionO fetchO decO now ciphertext dealId u1).2.all
        (fun c =>
          match c with
          | SealNetCall.fetchKeys req => req.txBytes.isEmpty
          | _ => true)) = true := by
    unfold SealService.decrypt
    repeat' (first | rfl | split | dsimp only)
  refine ⟨rfl, ?_⟩
  intro req hmem
  have hreq := List.all_eq_true.mp hall _ hmem
  simpa [List.isEmpty_iff] using hreq

/-- C1 witness: a concrete decrypt run issuing a key-fetch request whose
approval transaction bytes are empty, with a trace identical for two
different user addresses. -/
theorem C1_witness :
    (@SealService.decrypt Unit ⟨true, some "0xpkg::mod", none, 0, 0, some ⟨"0xback"⟩⟩
        (fun _ => Except.ok ⟨"id1"⟩) (fun _ => Except.ok ())
        (fun _ => Except.ok ()) (fun _ => Except.ok [7]) 0 [1, 2] "0xdeal" "0xalice").2 =
      (@SealService.decrypt Unit ⟨true, some "0xpkg::mod", none, 0, 0, some ⟨"0xback"⟩⟩
        (fun _ => Except.ok ⟨"id1"⟩) (fun _ => Except.ok ())
        (fun _ => Except.ok ()) (fun _ => Except.ok [7]) 0 [1, 2] "0xdeal" "0xbob").2 ∧
    (⟨["id1"], [], (), 2⟩ : FetchKeysReq Unit).txBytes = [] :=
  ⟨(C1_decrypt_empty_txBytes_user_independent Unit
      ⟨true, some "0xpkg::mod", none, 0, 0, some ⟨"0xback"⟩⟩
      (fun _ => Except.ok ⟨"id1"⟩) (fun _ => Except.ok ())
      (fun _ => Except.ok ()) (fun _ => Except.ok [7]) 0 [1, 2] "0xdeal"
      "0xalice" "0xbob").1,
   (C1_decrypt_empty_txBytes_user_independent Unit
      ⟨true, some "0xpkg::mod", none, 0, 0, some ⟨"0xback"⟩⟩
      (fun _ => Except.ok ⟨"id1"⟩) (fun _ => Except.ok ())
      (fun _ => Except.ok ()) (fun _ => Except.ok [7]) 0 [1, 2] "0xdeal"
      "0xalice" "0xbob").2 ⟨["id1"], [], (), 2⟩ (by decide)⟩

/-- C2: `SuiService.verifyDealParticipant` returns `true` for every dealId and
address when the ledger (earnout) package id is not configured, and returns
`false`, never propagating the error, whenever the underlying ledger query
raises. -/
theorem C2_verifyDealParticipant_open_unconfigured_closed_on_error
    (cfg : AppConfig) (fetch : String → Except String DealObjResponse)
    (dealId userAddress : String) :
    (jsOptStrTruthy cfg.earnoutPackageId = false →
      SuiService.verifyDealParticipant cfg fetch dealId userAddress = true) ∧
    (∀ e, jsOptStrTruthy cfg.earnoutPackageId = true → fetch dealId = Except.error e →
      SuiService.verifyDealParticipant cfg fetch dealId userAddress = false) := by
  constructor
  · intro h
    simp [SuiService.verifyDealParticipant, h]
  · intro e hcfg herr
    simp [SuiService.verifyDealParticipant, hcfg, herr]

/-- C2 witness: with the package id unset every address is accepted; with it
set and a failing ledger query the result is `false`. -/
theorem C2_witness :
    SuiService.verifyDealParticipant ⟨true, none, none, 0, 0, none⟩
      (fun _ => Except.error "network down") "0xdeal" "0xanyone" = true ∧
    SuiService.verifyDealParticipant ⟨true, none, some "0xearnout", 0, 0, none⟩
      (fun _ => Except.error "network down") "0xdeal" "0xanyone" = false :=
  ⟨(C2_verifyDealParticipant_open_unconfigured_closed_on_error
      ⟨true, none, none, 0, 0, none⟩ (fun _ => Except.error "network down")
      "0xdeal" "0xanyone").1 (by decide),
   (C2_verifyDealParticipant_open_unconfigured_closed_on_error
      ⟨true, none, some "0xearnout", 0, 0, none⟩ (fun _ => Except.error "network down")
      "0xdeal" "0xanyone").2 "network down" (by decide) rfl⟩

/-- C3: `SealService.verifyAccess` is unconditional in both configuration
branches: under `NODE_ENV = development` it grants access with the
placeholder role `buyer` for every input, otherwise it denies with the fixed
`not yet implemented` reason for every input; no ledger lookup is consulted
(the model takes no ledger oracle because the body performs no query). -/
theorem C3_verifyAccess_unconditional (nodeEnv dealId userAddress : String)
    (requiredRole : Option UserRole) :
    (nodeEnv = "development" →
      SealService.verifyAccess nodeEnv dealId userAddress requiredRole =
        ⟨true, some UserRole.buyer, none⟩) ∧
    (nodeEnv ≠ "development" →
      SealService.verifyAccess nodeEnv dealId userAddress requiredRole =
        ⟨false, none, some "Access verification not yet implemented"⟩) := by
  constructor
  · intro h
    subst h
    rfl
  · intro h
    simp [SealService.verifyAccess, h]

/-- C3 witness: both branches at concrete inputs (including a required role
that is ignored). -/
theorem C3_witness :
    SealService.verifyAccess "development" "0xdeal" "0xmallory" (some UserRole.auditor) =
      ⟨true, some UserRole.buyer, none⟩ ∧
    SealService.verifyAccess "production" "0xdeal" "0xbuyer" (some UserRole.buyer) =
      ⟨false, none, some "Access verification not yet implemented"⟩ :=
  ⟨(C3_verifyAccess_unconditional "development" "0xdeal" "0xmallory"
      (some UserRole.auditor)).1 rfl,
   (C3_verifyAccess_unconditional "production" "0xdeal" "0xbuyer"
      (some UserRole.buyer)).2 (by decide)⟩

/-- C8: `SealService.encrypt` fails immediately, with no encryption-SDK or
network call, whenever server-side encryption is disabled or no access-policy
identifier is configured; `SealService.decrypt` fails immediately, with no
key-server or SDK call, whenever server-side encryption is disabled or no
backend signing credential is configured. -/
theorem C8_encrypt_decrypt_config_guards_fail_fast (σ : Type) (cfg : AppConfig)
    (encO : SealEncryptReq → Except String (List Nat))
    (parse : List Nat → Except String ParsedEncryptedObject)
    (sessionO : SessionKeyReq → Except String σ)
    (fetchO : FetchKeysReq σ → Except String Unit)
    (decO : SealDecryptReq σ → Except String (List Nat)) (now : Nat)
    (plaintext : List Nat) (encryptionConfig : SealEncryptionConfig)
    (ciphertext : List Nat) (dealId userAddress : String) :
    ((cfg.enableServerEncryption = false ∨ jsOptStrTruthy cfg.sealPolicyObjectId = false) →
      (∃ e, (SealService.encrypt cfg encO now plaintext encryptionConfig).1 =
        Except.error e) ∧
      (SealService.encrypt cfg encO now plaintext encryptionConfig).2 = []) ∧
    ((cfg.enableServerEncryption = false ∨ cfg.backendKeypair = none) →
      (∃ e, (SealService.decrypt cfg parse sessionO fetchO decO now
          ciphertext dealId userAddress).1 = Except.error e) ∧
      (SealService.decrypt cfg parse sessionO fetchO decO now
          ciphertext dealId userAddress).2 = []) := by
  constructor
  · intro h
    by_cases he : cfg.enableServerEncryption
    · rcases h with h | h
      · rw [he] at h
        exact absurd h (by decide)
      · refine ⟨⟨"Seal policy object ID is not configured", ?_⟩, ?_⟩ <;>
          simp [SealService.encrypt, he, h]
    · refine ⟨⟨"Server-side encryption is disabled", ?_⟩, ?_⟩ <;>
        simp [SealService.encrypt, he]
  · intro h
    by_cases he : cfg.enableServerEncryption
    · rcases h with h | h
      · rw [he] at h
        exact absurd h (by decide)
      · refine ⟨⟨"Backend keypair is not configured for decryption", ?_⟩, ?_⟩ <;>
          simp [SealService.decrypt, he, h]
    · refine ⟨⟨"Server-side decryption is disabled", ?_⟩, ?_⟩ <;>
        simp [SealService.decrypt, he]

/-- C8 witness: with server-side encryption disabled, both `encrypt` and
`decrypt` fail with an empty call trace at concrete inputs. -/
theorem C8_witness :
    ((∃ e, (SealService.encrypt ⟨false, some "0xpkg::mod", none, 0, 0, none⟩
        (fun _ => Except.ok [9]) 0 [1] ⟨"0xpkg::mod", "0xdeal"⟩).1 = Except.error e) ∧
      (SealService.encrypt ⟨false, some "0xpkg::mod", none, 0, 0, none⟩
        (fun _ => Except.ok [9]) 0 [1] ⟨"0xpkg::mod", "0xdeal"⟩).2 = []) ∧
    ((∃ e, (@SealService.decrypt Unit ⟨false, some "0xpkg::mod", none, 0, 0, none⟩
        (fun _ => Except.ok ⟨"id1"⟩) (fun _ => Except.ok ()) (fun _ => Except.ok ())
        (fun _ => Except.ok [7]) 0 [1] "0xdeal" "0xuser").1 = Except.error e) ∧
      (@SealService.decrypt Unit ⟨false, some "0xpkg::mod", none, 0, 0, none⟩
        (fun _ => Except.ok ⟨"id1"⟩) (fun _ => Except.ok ()) (fun _ => Except.ok ())
        (fun _ => Except.ok [7]) 0 [1] "0xdeal" "0xuser").2 = []) :=
  ⟨(C8_encrypt_decrypt_config_guards_fail_fast Unit
      ⟨false, some "0xpkg::mod", none, 0, 0, none⟩ (fun _ => Except.ok [9])
      (fun _ => Except.ok ⟨"id1"⟩) (fun _ => Except.ok ()) (fun _ => Except.ok ())
      (fun _ => Except.ok [7]) 0 [1] ⟨"0xpkg::mod", "0xdeal"⟩ [1] "0xdeal"
      "0xuser").1 (Or.inl rfl),
   (C8_encrypt_decrypt_config_guards_fail_fast Unit
      ⟨false, some "0xpkg::mod", none, 0, 0, none⟩ (fun _ => Except.ok [9])
      (fun _ => Except.ok ⟨"id1"⟩) (fun _ => Except.ok ()) (fun _ => Except.ok ())
      (fun _ => Except.ok [7]) 0 [1] ⟨"0xpkg::mod", "0xdeal"⟩ [1] "0xdeal"
      "0xuser").2 (Or.inl rfl)⟩

/-- C10: `WalrusService.getBlobInfo` never throws because of the hash shape:
whenever the three underlying network calls succeed it returns a populated
`BlobInfo` whose commitment is `walrus:` followed by the hex digest when the
first primary hash carries the `Digest` discriminant, and the literal
`walrus:unknown` for every other hash shape. -/
theorem C10_getBlobInfo_hash_shape_tolerant
    (statusO : Except String Unit) (metaO : Except String WalrusBlobMetadata)
    (stateO : Except String SystemState) (now : Nat) (blobId : String)
    (metadata : WalrusBlobMetadata) (systemState : SystemState)
    (hstatus : statusO = Except.ok ()) (hmeta : metaO = Except.ok metadata)
    (hstate : stateO = Except.ok systemState) :
    (WalrusService.getBlobInfo statusO metaO stateO now blobId =
      Except.ok ⟨blobId, metadata.metadata.V1.unencoded_length, formatMetadata metadata,
        now, 0, systemState.epoch⟩) ∧
    (∀ bytes,
      (metadata.metadata.V1.hashes.head?).bind HashPair.primary_hash =
          some (PrimaryHash.digest bytes) →
        formatMetadata metadata = "walrus:" ++ bytesToHex bytes) ∧
    ((∀ bytes,
      (metadata.metadata.V1.hashes.head?).bind HashPair.primary_hash ≠
          some (PrimaryHash.digest bytes)) →
        formatMetadata metadata = "walrus:unknown") := by
  subst hstatus hmeta hstate
  refine ⟨rfl, ?_, ?_⟩
  · intro bytes hdig
    rcases hh : metadata.metadata.V1.hashes.head? with _ | hashPair
    · rw [hh] at hdig
      simp at hdig
    · rw [hh] at hdig
      simp only [Option.some_bind] at hdig
      simp [formatMetadata, hh, hdig]
  · intro hnone
    rcases hh : metadata.metadata.V1.hashes.head? with _ | hashPair
    · simp [formatMetadata, hh]
    · rcases hph : hashPair.primary_hash with _ | ph
      · simp [formatMetadata, hh, hph]
      · rcases ph with bytes | kind
        · exact absurd (by rw [hh]; simp [hph]) (hnone bytes)
        · simp [formatMetadata, hh, hph]

/-- C10 witness: a digest-tagged metadata yields the hex commitment, an
unrecognized discriminant yields the `walrus:unknown` sentinel, and in both
cases `getBlobInfo` returns a populated result. -/
theorem C10_witness :
    WalrusService.getBlobInfo (Except.ok ()) (Except.ok ⟨⟨⟨3, [⟨some (PrimaryHash.digest [1, 255])⟩]⟩⟩⟩)
        (Except.ok ⟨5⟩) 9 "blob1" =
      Except.ok ⟨"blob1", 3, formatMetadata ⟨⟨⟨3, [⟨some (PrimaryHash.digest [1, 255])⟩]⟩⟩⟩, 9, 0, 5⟩ ∧
    formatMetadata ⟨⟨⟨3, [⟨some (PrimaryHash.digest [1, 255])⟩]⟩⟩⟩ = "walrus:" ++ bytesToHex [1, 255] ∧
    formatMetadata ⟨⟨⟨3, [⟨some (PrimaryHash.otherKind "Sha256")⟩]⟩⟩⟩ = "walrus:unknown" :=
  ⟨(C10_getBlobInfo_hash_shape_tolerant (Except.ok ())
      (Except.ok ⟨⟨⟨3, [⟨some (PrimaryHash.digest [1, 255])⟩]⟩⟩⟩) (Except.ok ⟨5⟩) 9 "blob1"
      ⟨⟨⟨3, [⟨some (PrimaryHash.digest [1, 255])⟩]⟩⟩⟩ ⟨5⟩ rfl rfl rfl).1,
   (C10_getBlobInfo_hash_shape_tolerant (Except.ok ())
      (Except.ok ⟨⟨⟨3, [⟨some (PrimaryHash.digest [1, 255])⟩]⟩⟩⟩) (Except.ok ⟨5⟩) 9 "blob1"
      ⟨⟨⟨3, [⟨some (PrimaryHash.digest [1, 255])⟩]⟩⟩⟩ ⟨5⟩ rfl rfl rfl).2.1 [1, 255] rfl,
   (C10_getBlobInfo_hash_shape_tolerant (Except.ok ())
      (Except.ok ⟨⟨⟨3, [⟨some (PrimaryHash.otherKind "Sha256")⟩]⟩⟩⟩) (Except.ok ⟨5⟩) 9 "blob1"
      ⟨⟨⟨3, [⟨some (PrimaryHash.otherKind "Sha256")⟩]⟩⟩⟩ ⟨5⟩ rfl rfl rfl).2.2
     (fun bytes h => by simp at h)⟩

/-- C9: for every plaintext for which `SealService.encrypt` succeeds, the
commitment of the result is the string `sha256:` followed by exactly 64
lowercase hexadecimal characters, and that hex string is the SHA-256 digest
of the ciphertext bytes. -/
theorem C9_encrypt_commitment_sha256 (cfg : AppConfig)
    (encO : SealEncryptReq → Except String (List Nat)) (now : Nat)
    (plaintext : List Nat) (encryptionConfig : SealEncryptionConfig)
    (result : SealEncryptionResult) (calls : List SealEncryptReq)
    (hok : SealService.encrypt cfg encO now plaintext encryptionConfig =
      (Except.ok result, calls)) :
    result.commitment = "sha256:" ++ bytesToHex (sha256 result.ciphertext) ∧
    (bytesToHex (sha256 result.ciphertext)).length = 64 ∧
    (bytesToHex (sha256 result.ciphertext)).data.all isLowerHexDigit = true := by
  have hc : result.commitment = "sha256:" ++ bytesToHex (sha256 result.ciphertext) := by
    unfold SealService.encrypt at hok
    repeat' (first | (split at hok) | (dsimp only at hok))
    · exact absurd (congrArg Prod.fst hok) (by simp)
    · exact absurd (congrArg Prod.fst hok) (by simp)
    · exact absurd (congrArg Prod.fst hok) (by simp)
    · rw [Prod.mk.injEq] at hok
      obtain ⟨h1, h2⟩ := hok
      injection h1 with h1
      subst h1
      rfl
  refine ⟨hc, ?_, bytesToHex_all_hex _⟩
  rw [bytesToHex_length, sha256_length]

/-- C9 witness: a concrete successful encryption whose commitment is the
`sha256:`-prefixed digest of the returned ciphertext (the ciphertext bytes
spell `abc`, whose SHA-256 digest is the standard test vector). -/
theorem C9_witness :
    (SealService.encrypt ⟨true, some "0xpkg::mod", none, 0, 0, none⟩
        (fun _ => Except.ok [97, 98, 99]) 5 [1, 2, 3] ⟨"0xpkg::mod", "0xdeal"⟩ =
      (Except.ok ⟨[97, 98, 99],
          "sha256:ba7816bf8f01cfea414140de5dae2223b00361a396177a9cb410ff61f20015ad",
          "0xpkg::mod", 5⟩,
        [⟨2, "0xpkg", "0xdeal", [1, 2, 3]⟩])) ∧
    "sha256:ba7816bf8f01cfea414140de5dae2223b00361a396177a9cb410ff61f20015ad" =
      "sha256:" ++ bytesToHex (sha256 [97, 98, 99]) ∧
    (bytesToHex (sha256 [97, 98, 99])).length = 64 ∧
    (bytesToHex (sha256 [97, 98, 99])).data.all isLowerHexDigit = true :=
  ⟨by rfl,
   (C9_encrypt_commitment_sha256 ⟨true, some "0xpkg::mod", none, 0, 0, none⟩
      (fun _ => Except.ok [97, 98, 99]) 5 [1, 2, 3] ⟨"0xpkg::mod", "0xdeal"⟩
      ⟨[97, 98, 99],
        "sha256:ba7816bf8f01cfea414140de5dae2223b00361a396177a9cb410ff61f20015ad",
        "0xpkg::mod", 5⟩
      [⟨2, "0xpkg", "0xdeal", [1, 2, 3]⟩] (by rfl)).1,
   (C9_encrypt_commitment_sha256 ⟨true, some "0xpkg::mod", none, 0, 0, none⟩
      (fun _ => Except.ok [97, 98, 99]) 5 [1, 2, 3] ⟨"0xpkg::mod", "0xdeal"⟩
      ⟨[97, 98, 99],
        "sha256:ba7816bf8f01cfea414140de5dae2223b00361a396177a9cb410ff61f20015ad",
        "0xpkg::mod", 5⟩
      [⟨2, "0xpkg", "0xdeal", [1, 2, 3]⟩] (by rfl)).2⟩

/-- An audit-record fetch response that yields a record: a found Move object. -/
def auditFetchYields (response : Except String AuditObjResponse) : Prop :=
  ∃ fields, response = Except.ok ⟨some ⟨some (AuditContent.moveObject fields)⟩⟩

theorem fetchAuditRecords_skip_error
    (fetchObj : String → Except String AuditObjResponse) (bad : String) (e : String)
    (hbad : fetchObj bad = Except.error e) (l1 l2 : List String) :
    fetchAuditRecords fetchObj (l1 ++ bad :: l2) = fetchAuditRecords fetchObj (l1 ++ l2) := by
  unfold fetchAuditRecords
  rw [List.filterMap_append, List.filterMap_append, List.filterMap_cons]
  have hnone : auditRecordOfFetch fetchObj bad = none := by
    unfold auditRecordOfFetch
    rw [hbad]
  rw [hnone]

theorem fetchAuditRecords_length_all_yield
    (fetchObj : String → Except String AuditObjResponse) (l : List String)
    (hall : ∀ recordId ∈ l, auditFetchYields (fetchObj recordId)) :
    (fetchAuditRecords fetchObj l).length = l.length := by
  induction l with
  | nil => rfl
  | cons head tail ih =>
    obtain ⟨fields, hf⟩ := hall head (List.mem_cons_self head tail)
    have hsome : auditRecordOfFetch fetchObj head = some (mkAuditRecord head fields) := by
      unfold auditRecordOfFetch
      rw [hf]
    unfold fetchAuditRecords at ih ⊢
    rw [List.filterMap_cons, hsome, List.length_cons,
        ih (fun recordId hr => hall recordId (List.mem_cons_of_mem head hr))]
    rfl

/-- C6: when `getDealAuditRecords` has collected its candidate record ids from
the event scan and the individual object fetch fails for exactly one of them,
the query still returns the records of all remaining candidates — the result
is the same as if the failing id were absent, and with the other fetches
well-formed its length is the number of candidates minus one.  A single fetch
failure never aborts the whole query. -/
theorem C6_getDealAuditRecords_skips_single_failure (cfg : AppConfig)
    (queryO : Except String (List AuditEventJson))
    (fetchObj : String → Except String AuditObjResponse) (dealId : String)
    (events : List AuditEventJson) (l1 l2 : List String) (bad e : String)
    (hcfg : jsOptStrTruthy cfg.earnoutPackageId = true)
    (hq : queryO = Except.ok events)
    (hids : auditCandidateIds dealId events = l1 ++ bad :: l2)
    (hbad : fetchObj bad = Except.error e)
    (hrest : ∀ recordId ∈ l1 ++ l2, auditFetchYields (fetchObj recordId)) :
    SuiService.getDealAuditRecords cfg queryO fetchObj dealId =
      Except.ok (fetchAuditRecords fetchObj (l1 ++ l2)) ∧
    (fetchAuditRecords fetchObj (l1 ++ l2)).length = l1.length + l2.length := by
  constructor
  · subst hq
    unfold SuiService.getDealAuditRecords
    rw [hcfg]
    simp only [Bool.not_true, Bool.false_eq_true, if_false]
    rw [hids]
    have hne : (l1 ++ bad :: l2).isEmpty = false := by
      simp
    rw [hne]
    simp only [Bool.false_eq_true, if_false]
    rw [fetchAuditRecords_skip_error fetchObj bad e hbad l1 l2]
  · rw [fetchAuditRecords_length_all_yield fetchObj (l1 ++ l2) hrest]
    simp

/-- C6 witness: five candidate ids, one failing fetch among them, four
returned records. -/
theorem C6_witness :
    SuiService.getDealAuditRecords ⟨true, none, some "0xearnout", 0, 0, none⟩
        (Except.ok
          [⟨some "r1", some "0xdeal"⟩, ⟨some "r2", some "0xdeal"⟩,
           ⟨some "r3", some "0xdeal"⟩, ⟨some "r4", some "0xdeal"⟩,
           ⟨some "r5", some "0xdeal"⟩])
        (fun recordId =>
          if recordId == "r3" then Except.error "fetch failed"
          else Except.ok ⟨some ⟨some (AuditContent.moveObject
            ⟨some "blob", some "0xdeal", some "p1", some "0xup", some "111",
             some false, none, none⟩)⟩⟩)
        "0xdeal" =
      Except.ok (fetchAuditRecords
        (fun recordId =>
          if recordId == "r3" then Except.error "fetch failed"
          else Except.ok ⟨some ⟨some (AuditContent.moveObject
            ⟨some "blob", some "0xdeal", some "p1", some "0xup", some "111",
             some false, none, none⟩)⟩⟩)
        (["r1", "r2"] ++ ["r4", "r5"])) ∧
    (fetchAuditRecords
        (fun recordId =>
          if recordId == "r3" then Except.error "fetch failed"
          else Except.ok ⟨some ⟨some (AuditContent.moveObject
            ⟨some "blob", some "0xdeal", some "p1", some "0xup", some "111",
             some false, none, none⟩)⟩⟩)
        (["r1", "r2"] ++ ["r4", "r5"])).length = 4 :=
  C6_getDealAuditRecords_skips_single_failure
    ⟨true, none, some "0xearnout", 0, 0, none⟩
    (Except.ok
      [⟨some "r1", some "0xdeal"⟩, ⟨some "r2", some "0xdeal"⟩,
       ⟨some "r3", some "0xdeal"⟩, ⟨some "r4", some "0xdeal"⟩,
       ⟨some "r5", some "0xdeal"⟩])
    (fun recordId =>
      if recordId == "r3" then Except.error "fetch failed"
      else Except.ok ⟨some ⟨some (AuditContent.moveObject
        ⟨some "blob", some "0xdeal", some "p1", some "0xup", some "111",
         some false, none, none⟩)⟩⟩)
    "0xdeal"
    [⟨some "r1", some "0xdeal"⟩, ⟨some "r2", some "0xdeal"⟩,
     ⟨some "r3", some "0xdeal"⟩, ⟨some "r4", some "0xdeal"⟩,
     ⟨some "r5", some "0xdeal"⟩]
    ["r1", "r2"] ["r4", "r5"] "r3" "fetch failed" (by decide) rfl rfl rfl
    (by
      intro recordId hr
      fin_cases hr <;>
        exact ⟨⟨some "blob", some "0xdeal", some "p1", some "0xup", some "111",
          some false, none, none⟩, rfl⟩)

/-- C4 counterexample: a Deal whose `walrus_blobs` entry lacks the
blob-identifier field under both naming conventions is mapped by
`getDealBlobReferences` to a `BlobReference` whose blob identifier is the
fabricated empty string — refuting the claim that every returned reference
has a non-empty identifier. -/
theorem C4_counterexample :
    SuiService.getDealBlobReferences ⟨true, none, some "0xearnout", 0, 0, none⟩
        (fun _ => Except.ok ⟨some ⟨some (DealContent.moveObject
          ⟨some [⟨none, none, none, none, none, none, none, none, none, none, none⟩],
           none, none, none⟩)⟩⟩) "0xdeal" 77 =
      Except.ok [⟨"", "", "", 0, 77, ""⟩] ∧
    (⟨"", "", "", 0, 77, ""⟩ : OnChainBlobReference).blobId = "" :=
  ⟨rfl, rfl⟩

theorem jsStrOrElse_chain_empty_iff (a b : Option String) :
    jsStrOrElse a (jsStrOrElse b "") = "" ↔
      (jsOptStrTruthy a = false ∧ jsOptStrTruthy b = false) := by
  rcases a with _ | sa
  · rcases b with _ | sb
    · simp [jsStrOrElse, jsOptStrTruthy]
    · by_cases hsb : sb = "" <;> simp [jsStrOrElse, jsOptStrTruthy, hsb]
  · rcases b with _ | sb
    · by_cases hsa : sa = "" <;> simp [jsStrOrElse, jsOptStrTruthy, hsa]
    · by_cases hsa : sa = "" <;> by_cases hsb : sb = "" <;>
        simp [jsStrOrElse, jsOptStrTruthy, hsa, hsb]

/-- C4 amended: a `BlobReference` returned by `getDealBlobReferences` has an
empty blob identifier exactly when the underlying record's blob-identifier
field is absent or empty under both naming conventions — in that case the
adapter substitutes the empty string rather than dropping the record. -/
theorem C4_amended_blobId_empty_iff_source_missing (cfg : AppConfig)
    (fetch : String → Except String DealObjResponse) (dealId : String) (now : Nat)
    (fields : DealFields) (walrusBlobs : List RawBlob)
    (hcfg : jsOptStrTruthy cfg.earnoutPackageId = true)
    (hfetch : fetch dealId =
      Except.ok ⟨some ⟨some (DealContent.moveObject fields)⟩⟩)
    (hblobs : fields.walrus_blobs = some walrusBlobs) :
    SuiService.getDealBlobReferences cfg fetch dealId now =
      Except.ok (walrusBlobs.map (mapRawBlob now)) ∧
    ∀ blob ∈ walrusBlobs,
      ((mapRawBlob now blob).blobId = "" ↔
        (jsOptStrTruthy blob.blob_id = false ∧ jsOptStrTruthy blob.blobId = false)) := by
  constructor
  · simp [SuiService.getDealBlobReferences, hcfg, hfetch, hblobs]
  · intro blob _
    have hfield : (mapRawBlob now blob).blobId =
        jsStrOrElse blob.blob_id (jsStrOrElse blob.blobId "") := rfl
    rw [hfield]
    exact jsStrOrElse_chain_empty_iff blob.blob_id blob.blobId

/-- C4 witness: a record with a populated snake_case identifier maps to a
non-empty `blobId`, while a record with both identifier fields missing maps
to the empty string. -/
theorem C4_witness :
    SuiService.getDealBlobReferences ⟨true, none, some "0xearnout", 0, 0, none⟩
        (fun _ => Except.ok ⟨some ⟨some (DealContent.moveObject
          ⟨some [⟨some "blobA", none, none, none, none, none, none, none, none, none, none⟩,
                 ⟨none, none, none, none, none, none, none, none, none, none, none⟩],
           none, none, none⟩)⟩⟩) "0xdeal" 77 =
      Except.ok
        ([⟨some "blobA", none, none, none, none, none, none, none, none, none, none⟩,
          ⟨none, none, none, none, none, none, none, none, none, none, none⟩].map
          (mapRawBlob 77)) ∧
    ((mapRawBlob 77 ⟨none, none, none, none, none, none, none, none, none, none, none⟩).blobId = "" ↔
      (jsOptStrTruthy (none : Option String) = false ∧
        jsOptStrTruthy (none : Option String) = false)) :=
  ⟨(C4_amended_blobId_empty_iff_source_missing ⟨true, none, some "0xearnout", 0, 0, none⟩
      (fun _ => Except.ok ⟨some ⟨some (DealContent.moveObject
        ⟨some [⟨some "blobA", none, none, none, none, none, none, none, none, none, none⟩,
               ⟨none, none, none, none, none, none, none, none, none, none, none⟩],
         none, none, none⟩)⟩⟩) "0xdeal" 77
      ⟨some [⟨some "blobA", none, none, none, none, none, none, none, none, none, none⟩,
             ⟨none, none, none, none, none, none, none, none, none, none, none⟩],
       none, none, none⟩
      [⟨some "blobA", none, none, none, none, none, none, none, none, none, none⟩,
       ⟨none, none, none, none, none, none, none, none, none, none, none⟩]
      (by decide) rfl rfl).1,
   (C4_amended_blobId_empty_iff_source_missing ⟨true, none, some "0xearnout", 0, 0, none⟩
      (fun _ => Except.ok ⟨some ⟨some (DealContent.moveObject
        ⟨some [⟨some "blobA", none, none, none, none, none, none, none, none, none, none⟩,
               ⟨none, none, none, none, none, none, none, none, none, none, none⟩],
         none, none, none⟩)⟩⟩) "0xdeal" 77
      ⟨some [⟨some "blobA", none, none, none, none, none, none, none, none, none, none⟩,
             ⟨none, none, none, none, none, none, none, none, none, none, none⟩],
       none, none, none⟩
      [⟨some "blobA", none, none, none, none, none, none, none, none, none, none⟩,
       ⟨none, none, none, none, none, none, none, none, none, none, none⟩]
      (by decide) rfl rfl).2
     ⟨none, none, none, none, none, none, none, none, none, none, none⟩ (by simp)⟩

/-- C5 counterexample: with the maximum file size configured to 2 bytes, a
2-byte payload is at the configured maximum, yet `upload` does not fail with
a validation error — it proceeds to the storage relay (the size guard uses a
strict comparison), issues network calls and succeeds. -/
theorem C5_counterexample :
    ([1, 2] : List Nat).length ≥
      (⟨true, none, none, 2, 3, some ⟨"0xback"⟩⟩ : AppConfig).walrusMaxFileSize ∧
    WalrusService.upload ⟨true, none, none, 2, 3, some ⟨"0xback"⟩⟩
        (fun _ => Except.ok ⟨"blob1", "certdata"⟩) (Except.ok ⟨10⟩) 99 [1, 2] ⟨"doc.pdf"⟩ =
      (Except.ok ⟨"blob1", "walrus:certdata", 2, 99, 3, 13⟩,
       [WalrusNetCall.writeBlob [1, 2] true 3 "0xback", WalrusNetCall.systemStateCall]) :=
  ⟨by decide, by rfl⟩

/-- C5 amended: for every payload whose size strictly exceeds the configured
maximum file size, `upload` fails with the size-validation error (wrapped by
the generic upload failure message) and issues no network call; a payload of
exactly the maximum size is accepted. -/
theorem C5_amended_oversized_upload_fails_before_network (cfg : AppConfig)
    (writeO : List Nat → Except String WalrusWriteResult)
    (stateO : Except String SystemState) (now : Nat) (data : List Nat)
    (metadata : BlobMetadata) (hsize : data.length > cfg.walrusMaxFileSize) :
    WalrusService.upload cfg writeO stateO now data metadata =
      (Except.error
        ("Failed to upload to Walrus: " ++ "File size " ++ toString data.length ++
         " exceeds maximum allowed " ++ toString cfg.walrusMaxFileSize ++ " bytes"),
       []) := by
  unfold WalrusService.upload
  rw [if_pos hsize]

/-- C5 witness: a 3-byte payload against a 2-byte maximum is rejected with
the validation message before any network call. -/
theorem C5_witness :
    WalrusService.upload ⟨true, none, none, 2, 3, some ⟨"0xback"⟩⟩
        (fun _ => Except.ok ⟨"blob1", "certdata"⟩) (Except.ok ⟨10⟩) 99 [1, 2, 3] ⟨"doc.pdf"⟩ =
      (Except.error "Failed to upload to Walrus: File size 3 exceeds maximum allowed 2 bytes",
       []) :=
  C5_amended_oversized_upload_fails_before_network ⟨true, none, none, 2, 3, some ⟨"0xback"⟩⟩
    (fun _ => Except.ok ⟨"blob1", "certdata"⟩) (Except.ok ⟨10⟩) 99 [1, 2, 3] ⟨"doc.pdf"⟩
    (by decide)

/-- C7 counterexample: two ledger records carrying the same values — one
under snake_case keys, one under camelCase keys — are not normalized to
identical outputs: the snake_case `uploaded_at` is interpreted as seconds and
multiplied by 1000, while the camelCase `uploadedAt` is taken as milliseconds,
so the two `BlobReference`s differ in their upload timestamp. -/
theorem C7_counterexample :
    SuiService.getDealBlobReferences ⟨true, none, some "0xearnout", 0, 0, none⟩
        (fun _ => Except.ok ⟨some ⟨some (DealContent.moveObject
          ⟨some [⟨some "b", none, some "p", none, some "d", none, some 5, some 1, none,
                  some "u", none⟩], none, none, none⟩)⟩⟩) "0xdeal" 7 =
      Except.ok [⟨"b", "p", "d", 5, 1000, "u"⟩] ∧
    SuiService.getDealBlobReferences ⟨true, none, some "0xearnout", 0, 0, none⟩
        (fun _ => Except.ok ⟨some ⟨some (DealContent.moveObject
          ⟨some [⟨none, some "b", none, some "p", none, some "d", some 5, none, some 1,
                  none, some "u"⟩], none, none, none⟩)⟩⟩) "0xdeal" 7 =
      Except.ok [⟨"b", "p", "d", 5, 1, "u"⟩] ∧
    (⟨"b", "p", "d", 5, 1000, "u"⟩ : OnChainBlobReference) ≠ ⟨"b", "p", "d", 5, 1, "u"⟩ :=
  ⟨rfl, rfl, by decide⟩

/-- C7 amended: a record under snake_case keys and a record carrying the same
values under camelCase keys are normalized by the `getDealBlobReferences`
mapping to outputs that agree on the blob identifier, period identifier,
data-type tag, size and uploader address (preferring whichever naming is
present); the upload timestamps agree only in interpretation-dependent form —
the snake_case value is scaled as seconds to milliseconds while the camelCase
value is taken as milliseconds. -/
theorem C7_amended_same_values_agree_except_timestamp (now : Nat)
    (bid pid dt : String) (sz ts : Nat) (addr : String) :
    (mapRawBlob now ⟨some bid, none, some pid, none, some dt, none, some sz, some ts, none,
        some addr, none⟩).blobId =
      (mapRawBlob now ⟨none, some bid, none, some pid, none, some dt, some sz, none, some ts,
        none, some addr⟩).blobId ∧
    (mapRawBlob now ⟨some bid, none, some pid, none, some dt, none, some sz, some ts, none,
        some addr, none⟩).periodId =
      (mapRawBlob now ⟨none, some bid, none, some pid, none, some dt, some sz, none, some ts,
        none, some addr⟩).periodId ∧
    (mapRawBlob now ⟨some bid, none, some pid, none, some dt, none, some sz, some ts, none,
        some addr, none⟩).dataType =
      (mapRawBlob now ⟨none, some bid, none, some pid, none, some dt, some sz, none, some ts,
        none, some addr⟩).dataType ∧
    (mapRawBlob now ⟨some bid, none, some pid, none, some dt, none, some sz, some ts, none,
        some addr, none⟩).size =
      (mapRawBlob now ⟨none, some bid, none, some pid, none, some dt, some sz, none, some ts,
        none, some addr⟩).size ∧
    (mapRawBlob now ⟨some bid, none, some pid, none, some dt, none, some sz, some ts, none,
        some addr, none⟩).uploaderAddress =
      (mapRawBlob now ⟨none, some bid, none, some pid, none, some dt, some sz, none, some ts,
        none, some addr⟩).uploaderAddress ∧
    (ts ≠ 0 →
      (mapRawBlob now ⟨some bid, none, some pid, none, some dt, none, some sz, some ts, none,
          some addr, none⟩).uploadedAt = ts * 1000 ∧
      (mapRawBlob now ⟨none, some bid, none, some pid, none, some dt, some sz, none, some ts,
          none, some addr⟩).uploadedAt = ts) := by
  refine ⟨rfl, rfl, rfl, rfl, rfl, ?_⟩
  intro hts
  constructor <;> simp [mapRawBlob, jsNumTruthy, hts]

/-- C7 amended witness: the five shared fields agree at concrete values and
the nonzero timestamp 1 is scaled to 1000 ms on the snake_case side but kept
as 1 ms on the camelCase side. -/
theorem C7_witness :
    (mapRawBlob 7 ⟨some "b", none, some "p", none, some "d", none, some 5, some 1, none,
        some "u", none⟩).blobId =
      (mapRawBlob 7 ⟨none, some "b", none, some "p", none, some "d", some 5, none, some 1,
        none, some "u"⟩).blobId ∧
    (mapRawBlob 7 ⟨some "b", none, some "p", none, some "d", none, some 5, some 1, none,
        some "u", none⟩).uploadedAt = 1 * 1000 ∧
    (mapRawBlob 7 ⟨none, some "b", none, some "p", none, some "d", some 5, none, some 1,
        none, some "u"⟩).uploadedAt = 1 :=
  ⟨(C7_amended_same_values_agree_except_timestamp 7 "b" "p" "d" 5 1 "u").1,
   ((C7_amended_same_values_agree_except_timestamp 7 "b" "p" "d" 5 1 "u").2.2.2.2.2
      (by decide)).1,
   ((C7_amended_same_values_agree_except_timestamp 7 "b" "p" "d" 5 1 "u").2.2.2.2.2
      (by decide)).2⟩
